import Mathlib

/-!
Shallow embedding of the Netflix data-insight repository
(`src/data_loader.py` and `src/exploratory_analysis.py`) and proofs about
its specification.

Modelling conventions:
* A pandas `DataFrame` is a `Table`: an ordered list of named, dtyped
  columns together with a list of rows; each cell is an `Option Val`
  (`none` models a missing value / `NaN` / `NaT`).
* Machine floats are modelled as exact rationals `ℚ`.  Where pandas
  computes an irrational quantity (a square root inside std, skewness or
  a Pearson coefficient) the embedding carries the exact rational
  *signed square* of that quantity, which determines it uniquely.
* Python exceptions that escape a method are modelled with
  `Except String _`; the string names the Python exception class.
* Mutation of `self.data` is modelled two ways: the analysis methods are
  pure functions of an `Analyzer` record, and on top of that a small
  heap (`Store := List Table`, a `DataFrame` reference is an index) makes
  aliasing between the caller's frame and the analyzer's frame explicit,
  so that `data.copy()` in `__init__` is a real allocation.
-/

namespace Netflix

/-- A cell value: number, string, or datetime (timestamp as a rational
number of days since the epoch, fractional part = time of day). -/
inductive Val where
  | num (q : ℚ)
  | str (s : String)
  | dt (t : ℚ)
deriving DecidableEq, Repr

/-- A pandas column dtype, as far as this repository can observe it:
`select_dtypes(include=[np.number])` picks `numeric`,
`select_dtypes(include=['object'])` picks `object`, and
`pd.to_datetime` produces `datetime` columns (which belong to neither
selection). -/
inductive Dtype where
  | numeric
  | object
  | datetime
deriving DecidableEq, Repr

/-- A DataFrame: named dtyped columns and a list of rows.  A cell is
`none` when the value is missing (`NaN`/`NaT`). -/
structure Table where
  cols : List (String × Dtype)
  rows : List (List (Option Val))
deriving DecidableEq, Repr

namespace Table

/-- Column names, in order. -/
def colNames (t : Table) : List String := t.cols.map (·.1)

/-- Index of a named column. -/
def colIdx (t : Table) (c : String) : Nat :=
  t.cols.findIdx (fun p => p.1 = c)

/-- The cells of one named column, top to bottom (`self.data[c]`). -/
def getCol (t : Table) (c : String) : List (Option Val) :=
  t.rows.map (fun r => r.getD (t.colIdx c) none)

/-- Number of rows (`len(df)`). -/
def nRows (t : Table) : Nat := t.rows.length

/-- Whether a row contains at least one missing value. -/
def rowHasMissing (r : List (Option Val)) : Bool := r.any (·.isNone)

/-- Total number of missing cells in the table. -/
def countMissing (t : Table) : Nat :=
  (t.rows.map (fun r => r.countP (·.isNone))).sum

/-- `df.dropna()`: keep the rows without any missing value. -/
def dropna (t : Table) : Table :=
  ⟨t.cols, t.rows.filter (fun r => !(rowHasMissing r))⟩

/-- `df.fillna(0)`: replace every missing cell by numeric `0`
(also in non-numeric columns, exactly as the source does). -/
def fillna0 (t : Table) : Table :=
  ⟨t.cols, t.rows.map (fun r => r.map (fun v => some (v.getD (Val.num 0))))⟩

/-- Whether one row matches `df[c] == v` (a missing cell never matches,
as in pandas). -/
def cellMatches (t : Table) (c : String) (v : Val) (r : List (Option Val)) : Bool :=
  r.getD (t.colIdx c) none = some v

/-- `df[df[c] == v]`. -/
def filterEq (t : Table) (c : String) (v : Val) : Table :=
  ⟨t.cols, t.rows.filter (cellMatches t c v)⟩

/-- `df.head n`. -/
def head (t : Table) (n : Nat) : Table := ⟨t.cols, t.rows.take n⟩

end Table

/-! ## `src/data_loader.py` — `NetflixDataLoader` -/

/-- The loader instance state: `self.data_path` and `self.data`
(`None` until a successful `load_csv`). -/
structure Loader where
  data_path : String
  data : Option Table
deriving DecidableEq, Repr

/-- `NetflixDataLoader.__init__`. -/
def NetflixDataLoader (path : String) : Loader := ⟨path, none⟩

/-- The result of `pd.read_csv`: `none` models the file being absent or
unreadable (the caught `FileNotFoundError` / generic exception branches). -/
def load_csv (l : Loader) (file : Option Table) : Loader × Option Table :=
  match file with
  | some t => ({ l with data := some t }, some t)
  | none => (l, none)

/-- The dictionary built by `get_basic_info` (`{}` is `none`). -/
structure BasicInfo where
  rows : Nat
  columns : Nat
  column_names : List String
  missing_values : List (String × Nat)
  dtypes : List (String × Dtype)
deriving DecidableEq, Repr

/-- `NetflixDataLoader.get_basic_info`. -/
def get_basic_info (l : Loader) : Loader × Option BasicInfo :=
  match l.data with
  | none => (l, none)
  | some t =>
      (l, some { rows := t.nRows
               , columns := t.cols.length
               , column_names := t.colNames
               , missing_values :=
                   t.cols.map (fun p => (p.1, (t.getCol p.1).countP (·.isNone)))
               , dtypes := t.cols })

/-- `NetflixDataLoader.show_sample`. -/
def show_sample (l : Loader) (n : Nat) : Loader × Option Table :=
  match l.data with
  | none => (l, none)
  | some t => (l, some (t.head n))

/-- `NetflixDataLoader.handle_missing_values`. -/
def handle_missing_values (l : Loader) (strategy : String) : Loader × Option Table :=
  match l.data with
  | none => (l, none)
  | some t =>
      if strategy = "drop" then (l, some t.dropna)
      else if strategy = "fill" then (l, some t.fillna0)
      else (l, some t)

/-- `NetflixDataLoader.filter_by_column`. -/
def filter_by_column (l : Loader) (column : String) (value : Val) :
    Loader × Option Table :=
  match l.data with
  | none => (l, none)
  | some t =>
      if column ∈ t.colNames then (l, some (t.filterEq column value))
      else (l, none)

/-! ## `src/exploratory_analysis.py` — `NetflixExploratoryAnalysis` -/

/-- `data.select_dtypes(include=[np.number]).columns.tolist()`. -/
def numericalColsOf (t : Table) : List String :=
  (t.cols.filter (fun p => p.2 = Dtype.numeric)).map (·.1)

/-- `data.select_dtypes(include=['object']).columns.tolist()`. -/
def categoricalColsOf (t : Table) : List String :=
  (t.cols.filter (fun p => p.2 = Dtype.object)).map (·.1)

/-- The analyzer instance state: `self.data`, `self.numerical_cols`,
`self.categorical_cols`. -/
structure Analyzer where
  data : Table
  numerical_cols : List String
  categorical_cols : List String
deriving DecidableEq, Repr

/-- `NetflixExploratoryAnalysis.__init__`: `self.data = data.copy()` and the
column classification, computed once from the constructor argument. -/
def NetflixExploratoryAnalysis (data : Table) : Analyzer :=
  { data := data, numerical_cols := numericalColsOf data
  , categorical_cols := categoricalColsOf data }

/-- Linear interpolation on an already sorted sample; `series.quantile q`
sorts first, see `quantile`.  Pandas returns NaN on an empty series; the
`0` returned here is never exposed by the program, because the only empty
case feeds the `ZeroDivisionError` branch of `detect_outliers`. -/
def quantileSorted (s : List ℚ) (q : ℚ) : ℚ :=
  if s.length = 0 then 0
  else
    let pos := q * ((s.length : ℚ) - 1)
    let i := ⌊pos⌋.toNat
    let frac := pos - (i : ℚ)
    let lo := s.getD i 0
    let hi := s.getD (min (i + 1) (s.length - 1)) 0
    lo + frac * (hi - lo)

/-- `series.quantile q` with pandas' default linear interpolation. -/
def quantile (xs : List ℚ) (q : ℚ) : ℚ :=
  quantileSorted (List.insertionSort (· ≤ ·) xs) q

/-- `self.data[column].dropna()` on a numerical column: the non-missing
numerical cells of the column, each paired with its original row label
(pandas keeps the labels of the surviving rows). -/
def numPairs (t : Table) (c : String) : List (Nat × ℚ) :=
  (t.getCol c).enum.filterMap (fun p =>
    match p.2 with
    | some (Val.num q) => some (p.1, q)
    | _ => none)

/-- The `stats_dict` built by `detect_outliers` (one shape per method). -/
inductive OutStats where
  | iqr (lower_bound upper_bound : ℚ) (n_outliers : Nat) (outlier_percentage : ℚ)
  | zscore (threshold : ℚ) (n_outliers : Nat) (outlier_percentage : ℚ)
deriving DecidableEq, Repr

/-- `NetflixExploratoryAnalysis.detect_outliers`.

* The Python tuple `([], {})` returned for a non-numerical column is
  `Except.ok ([], none)`.
* When `len(data) == 0` the expression `(len(outliers)/len(data))*100`
  raises; modelled as `Except.error "ZeroDivisionError"`.
* When `method` is neither `'iqr'` nor `'zscore'`, no branch assigns
  `stats_dict`, and the `print(stats_dict['method'])` after the `elif`
  raises; modelled as `Except.error "UnboundLocalError"`.
* `|z| > 3` for scipy's `zscore` (population std, `ddof=0`) is expressed
  by the exact rational equivalent `(x - mean)² > 9·var`; when the std is
  zero the z-scores are NaN and pandas' comparison is false, which the
  rational form also gives. -/
def detect_outliers (a : Analyzer) (column method : String) :
    Except String (List Nat × Option OutStats) :=
  if column ∉ a.numerical_cols then
    Except.ok ([], none)
  else
    let data := numPairs a.data column
    if method = "iqr" then
      let q1 := quantile (data.map (·.2)) (1/4)
      let q3 := quantile (data.map (·.2)) (3/4)
      let iqr := q3 - q1
      let lower_bound := q1 - 3/2 * iqr
      let upper_bound := q3 + 3/2 * iqr
      let outliers := data.filter
        (fun p => decide (p.2 < lower_bound ∨ p.2 > upper_bound))
      if data.length = 0 then Except.error "ZeroDivisionError"
      else
        Except.ok (outliers.map (·.1),
          some (OutStats.iqr lower_bound upper_bound outliers.length
            ((outliers.length : ℚ) / (data.length : ℚ) * 100)))
    else if method = "zscore" then
      let n : ℚ := data.length
      let mean := (data.map (·.2)).sum / n
      let pvar := (data.map (fun p => (p.2 - mean) ^ 2)).sum / n
      let outliers := data.filter (fun p => decide ((p.2 - mean) ^ 2 > 9 * pvar))
      if data.length = 0 then Except.error "ZeroDivisionError"
      else
        Except.ok (outliers.map (·.1),
          some (OutStats.zscore 3 outliers.length
            ((outliers.length : ℚ) / (data.length : ℚ) * 100)))
    else Except.error "UnboundLocalError"

/-- The distinct elements of a list, first occurrences first. -/
def firstUniques {α : Type} [DecidableEq α] (l : List α) : List α :=
  l.foldl (fun acc v => if v ∈ acc then acc else acc ++ [v]) []

/-- `series.value_counts()`: frequencies of the non-missing values,
sorted by descending count (the relative order of exact ties is
library-defined and irrelevant to every claim). -/
def value_counts (cells : List (Option Val)) : List (Val × Nat) :=
  let vs := cells.filterMap id
  List.insertionSort (fun p q : Val × Nat => q.2 ≤ p.2)
    ((firstUniques vs).map (fun v => (v, vs.count v)))

/-- `series.nunique()`: number of distinct non-missing values. -/
def nunique (cells : List (Option Val)) : Nat :=
  (firstUniques (cells.filterMap id)).length

/-- One entry of the dictionary built by `categorical_analysis`. -/
structure CatProfile where
  unique_values : Nat
  most_common : Val
  most_common_count : Nat
  distribution : List (Val × Nat)
deriving DecidableEq, Repr

/-- The `for col in self.categorical_cols` loop of `categorical_analysis`.
`value_counts.index[0]` on an empty counts series (a column whose values
are all missing) raises; modelled as `Except.error "IndexError"`. -/
def catLoop (t : Table) : List String → Except String (List (String × CatProfile))
  | [] => Except.ok []
  | c :: rest =>
      match value_counts (t.getCol c) with
      | [] => Except.error "IndexError"
      | vc :: tail =>
          match catLoop t rest with
          | Except.error e => Except.error e
          | Except.ok rs =>
              Except.ok ((c,
                { unique_values := nunique (t.getCol c)
                , most_common := vc.1
                , most_common_count := vc.2
                , distribution := vc :: tail }) :: rs)

/-- `NetflixExploratoryAnalysis.categorical_analysis`. -/
def categorical_analysis (a : Analyzer) :
    Except String (List (String × CatProfile)) :=
  catLoop a.data a.categorical_cols

/-- The non-missing numerical cells of a column (no row labels). -/
def colNums (t : Table) (c : String) : List ℚ :=
  (numPairs t c).map (·.2)

/-- `np.round` / `DataFrame.round(2)`: half-to-even at two decimals. -/
def round2 (q : ℚ) : ℚ :=
  let x := q * 100
  let f := ⌊x⌋
  let r := x - (f : ℚ)
  let n : ℤ :=
    if r < 1/2 then f
    else if r > 1/2 then f + 1
    else if 2 ∣ f then f else f + 1
  (n : ℚ) / 100

/-- One column of the frame returned by `generate_statistical_summary`:
`describe()` plus the appended `variance`, `skewness` and `kurtosis` rows.
`std` and `skewness` are irrational (they contain a square root), so the
embedding carries their exact rational squares: `stdSq` is `std²`
(unrounded) and `skewSignedSq` is `skew·|skew|` (unrounded); every
rational-valued statistic is rounded to two decimals exactly as the
source's final `.round(2)` does.  For a sample too small for a moment,
pandas reports NaN where this embedding leaves rational division's junk
zero; no claim depends on those cells. -/
structure ColSummary where
  count : ℚ
  mean : ℚ
  stdSq : ℚ
  min : ℚ
  q25 : ℚ
  q50 : ℚ
  q75 : ℚ
  max : ℚ
  variance : ℚ
  skewSignedSq : ℚ
  kurtosis : ℚ
deriving DecidableEq, Repr

/-- The statistics of `describe`/`var`/`skew`/`kurtosis` for one column,
computed on the non-missing values with pandas' bias corrections. -/
def summarize (t : Table) (c : String) : ColSummary :=
  let xs := colNums t c
  let s := List.insertionSort (· ≤ ·) xs
  let n : ℚ := xs.length
  let m := xs.sum / n
  let d2 := (xs.map (fun x => (x - m) ^ 2)).sum
  let d3 := (xs.map (fun x => (x - m) ^ 3)).sum
  let d4 := (xs.map (fun x => (x - m) ^ 4)).sum
  let sv := d2 / (n - 1)
  { count := n
  , mean := round2 m
  , stdSq := sv
  , min := round2 (s.headD 0)
  , q25 := round2 (quantileSorted s (1/4))
  , q50 := round2 (quantileSorted s (1/2))
  , q75 := round2 (quantileSorted s (3/4))
  , max := round2 (s.getLastD 0)
  , variance := round2 sv
  , skewSignedSq := (n ^ 2 * d3 * |d3|) / ((n - 1) ^ 2 * (n - 2) ^ 2 * sv ^ 3)
  , kurtosis := round2 ((n * (n + 1) * d4) / ((n - 1) * (n - 2) * (n - 3) * sv ^ 2)
      - 3 * (n - 1) ^ 2 / ((n - 2) * (n - 3))) }

/-- `NetflixExploratoryAnalysis.generate_statistical_summary`:
`self.data[self.numerical_cols].describe()` with `variance`, `skewness`
and `kurtosis` rows appended, then `.round(2)`. -/
def generate_statistical_summary (a : Analyzer) : List (String × ColSummary) :=
  a.numerical_cols.map (fun c => (c, summarize a.data c))

/-- The rows where both columns are non-missing numbers (pandas computes
each correlation over the pairwise-complete observations). -/
def pairComplete (t : Table) (c1 c2 : String) : List (ℚ × ℚ) :=
  ((t.getCol c1).zip (t.getCol c2)).filterMap (fun p =>
    match p with
    | (some (Val.num a), some (Val.num b)) => some (a, b)
    | _ => none)

/-- Pearson's r is `cov/(σx·σy)`, irrational; the embedding carries the
exact rational signed square `r·|r|`, which determines r.  A zero
denominator is pandas' NaN, left at rational division's junk zero. -/
def pearsonSignedSq (ps : List (ℚ × ℚ)) : ℚ :=
  let n : ℚ := ps.length
  let mx := (ps.map (·.1)).sum / n
  let my := (ps.map (·.2)).sum / n
  let cov := (ps.map (fun p => (p.1 - mx) * (p.2 - my))).sum
  let vx := (ps.map (fun p => (p.1 - mx) ^ 2)).sum
  let vy := (ps.map (fun p => (p.2 - my) ^ 2)).sum
  cov * |cov| / (vx * vy)

/-- Average (midrank) of a value within a sample, as Spearman ranks ties. -/
def avgRank (xs : List ℚ) (x : ℚ) : ℚ :=
  (xs.countP (fun y => decide (y < x)) : ℚ)
    + ((xs.countP (fun y => decide (y = x)) : ℚ) + 1) / 2

/-- All unordered pairs of elements of a list. -/
def allPairs {α : Type} : List α → List (α × α)
  | [] => []
  | x :: xs => xs.map (fun y => (x, y)) ++ allPairs xs

/-- The sign of a rational. -/
def sgn (q : ℚ) : ℚ := if q > 0 then 1 else if q < 0 then -1 else 0

/-- Kendall's tau-b is `(C−D)/√((n0−n1)(n0−n2))`, irrational; the
embedding carries its exact rational signed square. -/
def kendallSignedSq (ps : List (ℚ × ℚ)) : ℚ :=
  let prs := allPairs ps
  let cd := (prs.map (fun w => sgn ((w.1.1 - w.2.1) * (w.1.2 - w.2.2)))).sum
  let dx : ℚ := prs.countP (fun w => decide (w.1.1 ≠ w.2.1))
  let dy : ℚ := prs.countP (fun w => decide (w.1.2 ≠ w.2.2))
  cd * |cd| / (dx * dy)

/-- One entry of the correlation matrix, as a signed square (see above). -/
def corrEntry (t : Table) (method c1 c2 : String) : ℚ :=
  let ps := pairComplete t c1 c2
  if method = "pearson" then pearsonSignedSq ps
  else if method = "spearman" then
    pearsonSignedSq (ps.map (fun p =>
      (avgRank (ps.map (·.1)) p.1, avgRank (ps.map (·.2)) p.2)))
  else kendallSignedSq ps

/-- `NetflixExploratoryAnalysis.correlation_analysis`:
`self.data[self.numerical_cols].corr(method=method)`.  Pandas raises a
`ValueError` for a method outside pearson/spearman/kendall. -/
def correlation_analysis (a : Analyzer) (method : String) :
    Except String (List (String × String × ℚ)) :=
  if method = "pearson" ∨ method = "spearman" ∨ method = "kendall" then
    Except.ok ((a.numerical_cols.map (fun c1 =>
      a.numerical_cols.map (fun c2 => (c1, c2, corrEntry a.data method c1 c2)))).flatten)
  else Except.error "ValueError"

/-- `pd.to_datetime` on one cell, for a string-parsing function `parse`
(the library's date parser, external to this repository): strings are
parsed, numbers are taken as epoch offsets, datetimes pass through, and a
missing cell becomes `NaT` (still missing). -/
def toDT (parse : String → ℚ) : Option Val → Option Val
  | some (Val.str s) => some (Val.dt (parse s))
  | some (Val.num q) => some (Val.dt q)
  | some (Val.dt x) => some (Val.dt x)
  | none => none

/-- `self.data[date_column] = pd.to_datetime(self.data[date_column])`:
the date column's cells are rewritten in place and its dtype becomes
datetime; every other column keeps its cells and dtype. -/
def convertDateCol (parse : String → ℚ) (t : Table) (c : String) : Table :=
  { cols := t.cols.map (fun p => if p.1 = c then (p.1, Dtype.datetime) else p)
  , rows := t.rows.map (fun r =>
      r.set (t.colIdx c) (toDT parse (r.getD (t.colIdx c) none))) }

/-- One row of the frame returned by `time_series_analysis`: the
per-calendar-date `mean`, `sum` and `count` aggregates of the value
column (`mean` of a group with no numerical value is pandas' NaN). -/
structure TsRow where
  date : ℤ
  mean : Option ℚ
  sum : ℚ
  count : Nat
deriving DecidableEq, Repr

/-- `.dt.date` of one cell: the calendar day of a datetime, `none` for
`NaT` or a non-datetime cell. -/
def dateKey (cell : Option Val) : Option ℤ :=
  match cell with
  | some (Val.dt x) => some ⌊x⌋
  | _ => none

/-- `self.data.groupby(self.data[dcol].dt.date)[vcol].agg(['mean','sum','count'])`:
rows with a missing group key are dropped, group keys are sorted
ascending, and the aggregates ignore missing values. -/
def tsAgg (t : Table) (dcol vcol : String) : List TsRow :=
  let di := t.colIdx dcol
  let vi := t.colIdx vcol
  let keyed := t.rows.filterMap (fun r =>
    (dateKey (r.getD di none)).map (fun k => (k, r.getD vi none)))
  let keys := List.insertionSort (· ≤ ·) (firstUniques (keyed.map (·.1)))
  keys.map (fun k =>
    let vals := ((keyed.filter (fun p => decide (p.1 = k))).map (·.2)).filterMap
      (fun cell => match cell with | some (Val.num q) => some q | _ => none)
    { date := k
    , mean := if vals.length = 0 then none else some (vals.sum / (vals.length : ℚ))
    , sum := vals.sum
    , count := vals.length })

/-- `NetflixExploratoryAnalysis.time_series_analysis`, as a transformer of
the instance state: reading a missing `date_column` raises a `KeyError`
before the assignment to `self.data`; a missing `value_column` raises a
`KeyError` after it (the date column is already converted). -/
def time_series_analysis (parse : String → ℚ) (a : Analyzer)
    (date_column value_column : String) :
    Analyzer × Except String (List TsRow) :=
  if date_column ∉ a.data.colNames then (a, Except.error "KeyError")
  else
    let a' := { a with data := convertDateCol parse a.data date_column }
    if value_column ∉ a'.data.colNames then (a', Except.error "KeyError")
    else (a', Except.ok (tsAgg a'.data date_column value_column))

/-! ## The heap view: `DataFrame` references and `data.copy()`

Python `DataFrame` variables are references into a heap of tables.  A
`Store` is that heap; a reference is an index.  `__init__`'s
`self.data = data.copy()` allocates a fresh table, which is what keeps
`time_series_analysis`'s in-place column rewrite invisible to the
caller's frame. -/

/-- The heap of live tables. -/
abbrev Store := List Table

/-- Default for dangling lookups (never reached by well-formed programs). -/
def emptyTable : Table := ⟨[], []⟩

/-- The analyzer instance, heap view: `self.data` is a reference. -/
structure AnalyzerH where
  ref : Nat
  numerical_cols : List String
  categorical_cols : List String
deriving DecidableEq, Repr

/-- `NetflixExploratoryAnalysis.__init__`, heap view: the table the
caller's reference designates is copied into a fresh cell, and the column
classification is computed from the constructor argument. -/
def mkAnalyzerH (r : Nat) (st : Store) : AnalyzerH × Store :=
  (⟨st.length, numericalColsOf (st.getD r emptyTable),
    categoricalColsOf (st.getD r emptyTable)⟩,
   st ++ [st.getD r emptyTable])

/-- The pure view of a heap analyzer. -/
def viewH (a : AnalyzerH) (st : Store) : Analyzer :=
  ⟨st.getD a.ref emptyTable, a.numerical_cols, a.categorical_cols⟩

/-- `generate_statistical_summary`, heap view (reads, never writes). -/
def summaryH (a : AnalyzerH) (st : Store) : Store × List (String × ColSummary) :=
  (st, generate_statistical_summary (viewH a st))

/-- `correlation_analysis`, heap view (reads, never writes). -/
def corrH (a : AnalyzerH) (method : String) (st : Store) :
    Store × Except String (List (String × String × ℚ)) :=
  (st, correlation_analysis (viewH a st) method)

/-- `detect_outliers`, heap view (reads, never writes). -/
def outliersH (a : AnalyzerH) (column method : String) (st : Store) :
    Store × Except String (List Nat × Option OutStats) :=
  (st, detect_outliers (viewH a st) column method)

/-- `categorical_analysis`, heap view (reads, never writes). -/
def catH (a : AnalyzerH) (st : Store) :
    Store × Except String (List (String × CatProfile)) :=
  (st, categorical_analysis (viewH a st))

/-- `time_series_analysis`, heap view: the assignment to
`self.data[date_column]` writes through the instance's reference. -/
def tsH (parse : String → ℚ) (a : AnalyzerH) (dcol vcol : String)
    (st : Store) : Store × Except String (List TsRow) :=
  let res := time_series_analysis parse (viewH a st) dcol vcol
  (st.set a.ref res.1.data, res.2)

/-- One analyzer method invocation, for reasoning about call sequences. -/
inductive AOp where
  | summary
  | corr (method : String)
  | outliers (column method : String)
  | catan
  | ts (dcol vcol : String)

/-- The heap after one method invocation. -/
def stepStore (parse : String → ℚ) (a : AnalyzerH) (st : Store) : AOp → Store
  | AOp.summary => (summaryH a st).1
  | AOp.corr m => (corrH a m st).1
  | AOp.outliers c m => (outliersH a c m st).1
  | AOp.catan => (catH a st).1
  | AOp.ts d v => (tsH parse a d v st).1

/-- The heap after a sequence of method invocations. -/
def runOps (parse : String → ℚ) (a : AnalyzerH) : List AOp → Store → Store
  | [], st => st
  | op :: ops, st => runOps parse a ops (stepStore parse a st op)

/-- The declared dtype of a named column. -/
def dtypeOf (t : Table) (c : String) : Option Dtype :=
  (t.cols.find? (fun p => p.1 = c)).map (·.2)

/-! ## Concrete tables used to instantiate the claims -/

/-- A small table with one missing cell in each column. -/
def tW : Table :=
  ⟨[("title", Dtype.object), ("views", Dtype.numeric)],
   [[some (Val.str "A"), some (Val.num 10)],
    [none, some (Val.num 20)],
    [some (Val.str "B"), none]]⟩

/-- A loader that has loaded `tW`. -/
def lW : Loader := ⟨"./data", some tW⟩

/-! ## Lemmas -/

theorem length_filter_not_eq_sub (p : List (Option Val) → Bool)
    (rs : List (List (Option Val))) :
    (rs.filter (fun r => !(p r))).length = rs.length - rs.countP p := by
  have h : (rs.filter (fun r => !(p r))).length + rs.countP p = rs.length := by
    induction rs with
    | nil => simp
    | cons r rs ih =>
        by_cases hr : p r <;> simp [List.countP_cons, hr] <;> omega
  omega

theorem fillna0_countMissing (t : Table) : t.fillna0.countMissing = 0 := by
  simp only [Table.countMissing, Table.fillna0, List.map_map]
  rw [List.sum_eq_zero_iff]
  intro x hx
  obtain ⟨r, _, rfl⟩ := List.mem_map.mp hx
  simp [List.countP_eq_zero]

theorem fillna0_nRows (t : Table) : t.fillna0.nRows = t.nRows := by
  simp [Table.fillna0, Table.nRows]

theorem dropna_nRows (t : Table) :
    t.dropna.nRows = t.nRows - t.rows.countP Table.rowHasMissing :=
  length_filter_not_eq_sub Table.rowHasMissing t.rows

/-! ## Claims -/

/-- C3: for every loaded table, `handle_missing_values` with
strategy `'drop'` returns the table with exactly the rows containing a
missing value removed, so its row count is the original row count minus
the number of such rows; with strategy `'fill'` it returns a table with
zero missing cells and the original row count. -/
theorem C3_clean_missing (l : Loader) (t : Table) (h : l.data = some t) :
    ((handle_missing_values l "drop").2 = some t.dropna
      ∧ t.dropna.nRows = t.nRows - t.rows.countP Table.rowHasMissing)
    ∧ ((handle_missing_values l "fill").2 = some t.fillna0
      ∧ t.fillna0.countMissing = 0
      ∧ t.fillna0.nRows = t.nRows) := by
  refine ⟨⟨?_, dropna_nRows t⟩, ⟨?_, fillna0_countMissing t, fillna0_nRows t⟩⟩ <;>
    simp [handle_missing_values, h]

theorem C3_clean_missing_witness :
    lW.data = some tW ∧
    ((handle_missing_values lW "drop").2 = some tW.dropna
      ∧ tW.dropna.nRows = tW.nRows - tW.rows.countP Table.rowHasMissing)
    ∧ ((handle_missing_values lW "fill").2 = some tW.fillna0
      ∧ tW.fillna0.countMissing = 0
      ∧ tW.fillna0.nRows = tW.nRows) :=
  ⟨rfl, C3_clean_missing lW tW rfl⟩

/-- C4: for every loaded table and every strategy other than `'drop'` and
`'fill'`, `handle_missing_values` returns the original table unchanged
(and does not touch the loader). -/
theorem C4_invalid_strategy (l : Loader) (t : Table) (h : l.data = some t)
    (s : String) (h1 : s ≠ "drop") (h2 : s ≠ "fill") :
    handle_missing_values l s = (l, some t) := by
  simp [handle_missing_values, h, h1, h2]

theorem C4_invalid_strategy_witness :
    lW.data = some tW ∧ "mean" ≠ "drop" ∧ "mean" ≠ "fill"
    ∧ handle_missing_values lW "mean" = (lW, some tW) :=
  ⟨rfl, by decide, by decide,
   C4_invalid_strategy lW tW rfl "mean" (by decide) (by decide)⟩

/-- C5: for every loaded table, `filter_by_column` on an existing column
returns exactly the rows whose cell in that column equals the value, its
row count is the number of such rows, and every returned row matches; on
a column that is not in the table it returns an absent result. -/
theorem C5_filter_by_column (l : Loader) (t : Table) (h : l.data = some t)
    (c : String) (v : Val) :
    (c ∈ t.colNames →
      filter_by_column l c v = (l, some (t.filterEq c v))
      ∧ (t.filterEq c v).rows = t.rows.filter (t.cellMatches c v)
      ∧ (t.filterEq c v).nRows = t.rows.countP (t.cellMatches c v)
      ∧ ∀ r ∈ (t.filterEq c v).rows, r.getD (t.colIdx c) none = some v)
    ∧ (c ∉ t.colNames → filter_by_column l c v = (l, none)) := by
  constructor
  · intro hc
    refine ⟨by simp [filter_by_column, h, hc], rfl,
      (List.countP_eq_length_filter _ _).symm, ?_⟩
    intro r hr
    have hm := (List.mem_filter.mp hr).2
    simpa [Table.cellMatches] using hm
  · intro hc
    simp [filter_by_column, h, hc]

theorem C5_filter_by_column_witness :
    "title" ∈ tW.colNames ∧
    (filter_by_column lW "title" (Val.str "A") = (lW, some (tW.filterEq "title" (Val.str "A")))
      ∧ (tW.filterEq "title" (Val.str "A")).rows
          = tW.rows.filter (tW.cellMatches "title" (Val.str "A"))
      ∧ (tW.filterEq "title" (Val.str "A")).nRows
          = tW.rows.countP (tW.cellMatches "title" (Val.str "A"))
      ∧ ∀ r ∈ (tW.filterEq "title" (Val.str "A")).rows,
          r.getD (tW.colIdx "title") none = some (Val.str "A")) :=
  ⟨by decide, (C5_filter_by_column lW tW rfl "title" (Val.str "A")).1 (by decide)⟩

/-- C10: the loader's stored table is assigned only by `load_csv`:
`handle_missing_values`, `filter_by_column`, `get_basic_info` and
`show_sample` leave the loader instance untouched, so a later
`get_basic_info` still reports the originally loaded table, missing
values included, while `load_csv` does update the stored table. -/
theorem C10_loader_only_load_assigns (l : Loader) (s c : String) (v : Val)
    (n : Nat) (t : Table) :
    (handle_missing_values l s).1 = l
    ∧ (filter_by_column l c v).1 = l
    ∧ (get_basic_info l).1 = l
    ∧ (show_sample l n).1 = l
    ∧ (get_basic_info (handle_missing_values l s).1).2 = (get_basic_info l).2
    ∧ (get_basic_info (filter_by_column l c v).1).2 = (get_basic_info l).2
    ∧ (load_csv l (some t)).1.data = some t
    ∧ (load_csv l none).1 = l := by
  have h1 : (handle_missing_values l s).1 = l := by
    rcases hl : l.data with _ | t'
    · simp [handle_missing_values, hl]
    · simp only [handle_missing_values, hl]
      split_ifs <;> rfl
  have h2 : (filter_by_column l c v).1 = l := by
    rcases hl : l.data with _ | t'
    · simp [filter_by_column, hl]
    · simp only [filter_by_column, hl]
      split_ifs <;> rfl
  have h3 : (get_basic_info l).1 = l := by
    rcases hl : l.data with _ | t' <;> simp [get_basic_info, hl]
  have h4 : (show_sample l n).1 = l := by
    rcases hl : l.data with _ | t' <;> simp [show_sample, hl]
  exact ⟨h1, h2, h3, h4, by rw [h1], by rw [h2], by simp [load_csv],
    by simp [load_csv]⟩

/-- A table whose numerical and categorical columns are all missing. -/
def tMiss : Table :=
  ⟨[("views", Dtype.numeric), ("genre", Dtype.object)],
   [[none, none], [none, none]]⟩

/-- The analyzer over `tMiss`. -/
def aMiss : Analyzer := NetflixExploratoryAnalysis tMiss

/-- The `[A, A, B]` categorical table of the spec's example. -/
def tC8 : Table :=
  ⟨[("genre", Dtype.object)],
   [[some (Val.str "A")], [some (Val.str "A")], [some (Val.str "B")]]⟩

theorem value_counts_all_missing {cells : List (Option Val)}
    (h : cells.all (·.isNone)) : value_counts cells = [] := by
  have hnil : cells.filterMap id = [] := by
    rw [List.filterMap_eq_nil_iff]
    intro a ha
    have := List.all_eq_true.mp h a ha
    cases a <;> simp_all
  simp [value_counts, hnil, firstUniques]

theorem catLoop_error_of_empty {t : Table} {cs : List String}
    (h : ∃ c ∈ cs, value_counts (t.getCol c) = []) :
    catLoop t cs = Except.error "IndexError" := by
  induction cs with
  | nil => simp at h
  | cons d ds ih =>
      obtain ⟨c, hc, hvc⟩ := h
      rcases List.mem_cons.mp hc with rfl | hc'
      · simp [catLoop, hvc]
      · simp only [catLoop]
        cases hvd : value_counts (t.getCol d) with
        | nil => rfl
        | cons vc tail => rw [ih ⟨c, hc', hvc⟩]

theorem catLoop_mem {t : Table} {cs : List String} {rs : List (String × CatProfile)}
    (hok : catLoop t cs = Except.ok rs) {c : String} (hc : c ∈ cs) :
    ∃ vc tail, value_counts (t.getCol c) = vc :: tail ∧
      (c, { unique_values := nunique (t.getCol c)
          , most_common := vc.1
          , most_common_count := vc.2
          , distribution := vc :: tail : CatProfile }) ∈ rs := by
  induction cs generalizing rs with
  | nil => simp at hc
  | cons d ds ih =>
      simp only [catLoop] at hok
      cases hvd : value_counts (t.getCol d) with
      | nil => rw [hvd] at hok; exact absurd hok (by simp)
      | cons vc tail =>
          rw [hvd] at hok
          cases hrest : catLoop t ds with
          | error e => rw [hrest] at hok; exact absurd hok (by simp)
          | ok rs' =>
              rw [hrest] at hok
              have hrs : rs = (d,
                  { unique_values := nunique (t.getCol d)
                  , most_common := vc.1
                  , most_common_count := vc.2
                  , distribution := vc :: tail : CatProfile }) :: rs' := by
                cases hok; rfl
              subst hrs
              rcases List.mem_cons.mp hc with rfl | hc'
              · exact ⟨vc, tail, hvd, List.mem_cons_self _ _⟩
              · obtain ⟨vc', tail', h1, h2⟩ := ih hrest hc'
                exact ⟨vc', tail', h1, List.mem_cons_of_mem _ h2⟩

/-- C2 (amended): the handled precondition — a column that is not
numerical — makes `detect_outliers` report and return the empty fallback
`([], {})`; but three inputs the claim covers escape as unhandled
errors: a method string outside `{iqr, zscore}` leaves `stats_dict`
unassigned and the closing `print` raises `UnboundLocalError`; a
numerical column whose values are all missing makes
`(len(outliers)/len(data))*100` raise `ZeroDivisionError`; and a
categorical column whose values are all missing makes
`value_counts.index[0]` raise `IndexError` in `categorical_analysis`. -/
theorem C2_amended_failure_semantics (a : Analyzer) (c m : String) :
    (c ∉ a.numerical_cols → detect_outliers a c m = Except.ok ([], none))
    ∧ (c ∈ a.numerical_cols → m ≠ "iqr" → m ≠ "zscore" →
        detect_outliers a c m = Except.error "UnboundLocalError")
    ∧ (c ∈ a.numerical_cols → numPairs a.data c = [] →
        detect_outliers a c "iqr" = Except.error "ZeroDivisionError"
        ∧ detect_outliers a c "zscore" = Except.error "ZeroDivisionError")
    ∧ ((∃ cc ∈ a.categorical_cols, (a.data.getCol cc).all (·.isNone)) →
        categorical_analysis a = Except.error "IndexError") := by
  refine ⟨fun hc => ?_, fun hc hm1 hm2 => ?_, fun hc hdata => ⟨?_, ?_⟩, fun hex => ?_⟩
  · simp [detect_outliers, hc]
  · simp [detect_outliers, hc, hm1, hm2]
  · simp [detect_outliers, hc, hdata]
  · simp [detect_outliers, hc, hdata]
  · obtain ⟨cc, hcc, hall⟩ := hex
    exact catLoop_error_of_empty ⟨cc, hcc, value_counts_all_missing hall⟩

theorem C2_amended_failure_semantics_witness :
    detect_outliers aMiss "genre" "iqr" = Except.ok ([], none)
    ∧ detect_outliers aMiss "views" "mean" = Except.error "UnboundLocalError"
    ∧ detect_outliers aMiss "views" "iqr" = Except.error "ZeroDivisionError"
    ∧ categorical_analysis aMiss = Except.error "IndexError" :=
  ⟨(C2_amended_failure_semantics aMiss "genre" "iqr").1 (by decide),
   (C2_amended_failure_semantics aMiss "views" "mean").2.1 (by decide)
     (by decide) (by decide),
   ((C2_amended_failure_semantics aMiss "views" "mean").2.2.1 (by decide) rfl).1,
   (C2_amended_failure_semantics aMiss "views" "mean").2.2.2
     ⟨"genre", by decide, by decide⟩⟩

/-- C2 counterexample: `detect_outliers` on a numerical column with the
unsupported method string `'mean'` does not report-and-fall-back — it
raises an unhandled `UnboundLocalError` (`stats_dict` is never
assigned), so not every operation/input returns a harmless fallback. -/
theorem C2_counterexample_unbound_local :
    detect_outliers aMiss "views" "mean" = Except.error "UnboundLocalError" := rfl

/-- C8: for every analyzer over a table in which column `c` holds the
values `[A, A, B]`, whenever `categorical_analysis` reports (column `c`
being among the categorical columns it iterates over), the profile it
reports for `c` has `unique_values = 2`, `most_common = A` and
`most_common_count = 2`. -/
theorem C8_categorical_AAB (t : Table) (c : String)
    (hcol : t.getCol c = [some (Val.str "A"), some (Val.str "A"), some (Val.str "B")])
    (rs : List (String × CatProfile))
    (hok : categorical_analysis (NetflixExploratoryAnalysis t) = Except.ok rs)
    (hc : c ∈ (NetflixExploratoryAnalysis t).categorical_cols) :
    (c, { unique_values := 2
        , most_common := Val.str "A"
        , most_common_count := 2
        , distribution := [(Val.str "A", 2), (Val.str "B", 1)] : CatProfile }) ∈ rs := by
  obtain ⟨vc, tail, h1, h2⟩ := catLoop_mem hok hc
  have hdata : (NetflixExploratoryAnalysis t).data = t := rfl
  rw [hdata, hcol] at h1 h2
  have hvc : value_counts [some (Val.str "A"), some (Val.str "A"), some (Val.str "B")]
      = [(Val.str "A", 2), (Val.str "B", 1)] := rfl
  rw [hvc] at h1
  cases h1
  have hnu : nunique [some (Val.str "A"), some (Val.str "A"), some (Val.str "B")] = 2 := rfl
  rw [hnu] at h2
  exact h2

theorem C8_categorical_AAB_witness :
    tC8.getCol "genre" = [some (Val.str "A"), some (Val.str "A"), some (Val.str "B")]
    ∧ "genre" ∈ (NetflixExploratoryAnalysis tC8).categorical_cols
    ∧ (("genre",
        { unique_values := 2
        , most_common := Val.str "A"
        , most_common_count := 2
        , distribution := [(Val.str "A", 2), (Val.str "B", 1)] : CatProfile }) ∈
       [("genre",
        { unique_values := 2
        , most_common := Val.str "A"
        , most_common_count := 2
        , distribution := [(Val.str "A", 2), (Val.str "B", 1)] : CatProfile })]) :=
  ⟨rfl, by decide,
   C8_categorical_AAB tC8 "genre" rfl _ rfl (by decide)⟩

/-- A table with a datetime column (the spec's own data model admits
datetime columns, and `time_series_analysis` produces them). -/
def tDate : Table := ⟨[("release_date", Dtype.datetime)], [[some (Val.dt 0)]]⟩

theorem mem_selectDtype {cols : List (String × Dtype)}
    (h : (cols.map (·.1)).Nodup) (c : String) (d : Dtype) :
    c ∈ (cols.filter (fun p => p.2 = d)).map (·.1)
      ↔ (cols.find? (fun p => p.1 = c)).map (·.2) = some d := by
  induction cols with
  | nil => simp
  | cons p ps ih =>
      simp only [List.map_cons, List.nodup_cons] at h
      by_cases hpc : p.1 = c
      · rw [List.find?_cons_of_pos _ (by simp [hpc])]
        simp only [Option.map_some', Option.some.injEq]
        by_cases hpd : p.2 = d
        · simp [List.filter_cons, hpd, hpc]
        · rw [List.filter_cons_of_neg (by simp [hpd])]
          constructor
          · intro hmem
            obtain ⟨q, hq, hq1⟩ := List.mem_map.mp hmem
            exact absurd (List.mem_map.mpr ⟨q, List.mem_of_mem_filter hq, hq1.trans hpc.symm⟩) h.1
          · intro hd
            exact absurd hd hpd
      · rw [List.find?_cons_of_neg _ (by simp [hpc])]
        by_cases hpd : p.2 = d
        · rw [List.filter_cons_of_pos (by simp [hpd])]
          simpa [Ne.symm hpc] using ih h.2
        · rw [List.filter_cons_of_neg (by simp [hpd])]
          exact ih h.2

/-- C6 counterexample: for the analyzer over a one-column table whose
column has dtype datetime, that column name is in the table but in
neither the numerical nor the categorical set, so the two sets do not
cover the table's column names. -/
theorem C6_counterexample_datetime_column :
    "release_date" ∈ tDate.colNames
    ∧ "release_date" ∉ (NetflixExploratoryAnalysis tDate).numerical_cols
    ∧ "release_date" ∉ (NetflixExploratoryAnalysis tDate).categorical_cols := by
  decide

/-- C6 (amended): for a table with distinct column names, the numerical
and categorical sets computed at construction are disjoint, and a column
name is in the numerical (resp. categorical) set exactly when its dtype
is numeric (resp. object) — so the two sets partition the columns of
those two dtypes, while a column of any other dtype (e.g. datetime)
belongs to neither set. -/
theorem C6_classification_partition (t : Table) (h : t.colNames.Nodup) (c : String) :
    ¬ (c ∈ (NetflixExploratoryAnalysis t).numerical_cols
        ∧ c ∈ (NetflixExploratoryAnalysis t).categorical_cols)
    ∧ (c ∈ (NetflixExploratoryAnalysis t).numerical_cols
        ↔ dtypeOf t c = some Dtype.numeric)
    ∧ (c ∈ (NetflixExploratoryAnalysis t).categorical_cols
        ↔ dtypeOf t c = some Dtype.object) := by
  have h1 := @mem_selectDtype t.cols h c Dtype.numeric
  have h2 := @mem_selectDtype t.cols h c Dtype.object
  refine ⟨?_, h1, h2⟩
  rintro ⟨ha, hb⟩
  have e1 := h1.mp ha
  have e2 := h2.mp hb
  rw [e1] at e2
  exact Dtype.noConfusion (Option.some.inj e2)

theorem C6_classification_partition_witness :
    tW.colNames.Nodup
    ∧ (¬ ("views" ∈ (NetflixExploratoryAnalysis tW).numerical_cols
          ∧ "views" ∈ (NetflixExploratoryAnalysis tW).categorical_cols)
      ∧ ("views" ∈ (NetflixExploratoryAnalysis tW).numerical_cols
          ↔ dtypeOf tW "views" = some Dtype.numeric)
      ∧ ("views" ∈ (NetflixExploratoryAnalysis tW).categorical_cols
          ↔ dtypeOf tW "views" = some Dtype.object)) :=
  ⟨by decide, C6_classification_partition tW (by decide) "views"⟩

/-- The `{1, 2, 3, 4, 5, 1000}` table of the spec's outlier example. -/
def tC1 : Table :=
  ⟨[("views", Dtype.numeric)],
   [[some (Val.num 1)], [some (Val.num 2)], [some (Val.num 3)],
    [some (Val.num 4)], [some (Val.num 5)], [some (Val.num 1000)]]⟩

/-- `detect_outliers` with `method='iqr'` on any numerical column whose
non-missing values are exactly `{1,2,3,4,5,1000}`: with pandas' linear
interpolation Q1 = 2.25 and Q3 = 4.75, so the bounds are −1.5 and 8.5,
and exactly the row holding 1000 is flagged. -/
theorem detect_outliers_iqr_135 (a : Analyzer) (c : String)
    (hc : c ∈ a.numerical_cols)
    (hperm : ((numPairs a.data c).map (·.2)).Perm [1, 2, 3, 4, 5, 1000]) :
    detect_outliers a c "iqr"
      = Except.ok (((numPairs a.data c).filter (fun p => decide (p.2 = 1000))).map (·.1),
          some (OutStats.iqr (-3/2) (17/2) 1 (50/3)))
    ∧ ((numPairs a.data c).filter (fun p => decide (p.2 = 1000))).length = 1 := by
  have hlen : (numPairs a.data c).length = 6 := by
    have h6 := hperm.length_eq
    simpa using h6
  have hne : ¬ (numPairs a.data c).length = 0 := by omega
  have hsort : List.insertionSort (· ≤ ·) ((numPairs a.data c).map (·.2))
      = [1, 2, 3, 4, 5, 1000] :=
    List.eq_of_perm_of_sorted ((List.perm_insertionSort _ _).trans hperm)
      (List.sorted_insertionSort _ _) (by decide)
  have hq1 : quantile ((numPairs a.data c).map (·.2)) (1/4) = 9/4 := by
    rw [quantile, hsort]
    norm_num [quantileSorted]
  have hq3 : quantile ((numPairs a.data c).map (·.2)) (3/4) = 19/4 := by
    rw [quantile, hsort]
    norm_num [quantileSorted, show ((3:ℤ).toNat = 3) from rfl]
  have hcount : ((numPairs a.data c).filter (fun p => decide (p.2 = 1000))).length = 1 := by
    rw [← List.countP_eq_length_filter]
    have hcm : (numPairs a.data c).countP (fun p => decide (p.2 = 1000))
        = ((numPairs a.data c).map (·.2)).countP (fun x => decide (x = 1000)) := by
      rw [List.countP_map]; rfl
    rw [hcm, hperm.countP_eq]
    decide
  have hfe : ∀ x y : ℚ, x = -3/2 → y = 17/2 →
      (numPairs a.data c).filter (fun p => decide (p.2 < x ∨ p.2 > y))
        = (numPairs a.data c).filter (fun p => decide (p.2 = 1000)) := by
    intro x y hx hy
    subst hx; subst hy
    apply List.filter_congr
    intro p hp
    rw [decide_eq_decide]
    have hmem : p.2 ∈ (numPairs a.data c).map (·.2) := List.mem_map_of_mem _ hp
    have h6 : p.2 = 1 ∨ p.2 = 2 ∨ p.2 = 3 ∨ p.2 = 4 ∨ p.2 = 5 ∨ p.2 = 1000 := by
      simpa using hperm.mem_iff.mp hmem
    rcases h6 with h|h|h|h|h|h <;> rw [h] <;> norm_num
  refine ⟨?_, hcount⟩
  unfold detect_outliers
  rw [if_neg (not_not_intro hc), if_pos rfl]
  simp only []
  rw [hq1, hq3]
  rw [hfe (9/4 - 3/2 * (19/4 - 9/4)) (19/4 + 3/2 * (19/4 - 9/4))
    (by norm_num) (by norm_num)]
  rw [if_neg hne]
  rw [hcount, hlen]
  norm_num

/-- C1 counterexample: on the `{1,2,3,4,5,1000}` column the code does
flag 1000 (row 5) with `n_outliers = 1`, but the reported lower bound is
`Q1 − 1.5·IQR = −3/2`, which is not positive, so the "both bounds
positive" part of the claim is false. -/
theorem C1_counterexample_negative_lower_bound :
    detect_outliers (NetflixExploratoryAnalysis tC1) "views" "iqr"
      = Except.ok ([5], some (OutStats.iqr (-3/2) (17/2) 1 (50/3)))
    ∧ ¬ (0 < (-3/2 : ℚ)) := by
  have hperm : ((numPairs (NetflixExploratoryAnalysis tC1).data "views").map (·.2)).Perm
      [1, 2, 3, 4, 5, 1000] := by
    have he : (numPairs (NetflixExploratoryAnalysis tC1).data "views").map (·.2)
        = [(1:ℚ), 2, 3, 4, 5, 1000] := rfl
    rw [he]
  have h := detect_outliers_iqr_135 (NetflixExploratoryAnalysis tC1) "views"
    (by decide) hperm
  refine ⟨?_, by norm_num⟩
  rw [h.1]
  rfl

/-- C1 (amended): for every analyzer over a table containing a numerical
column whose non-missing values are exactly `{1,2,3,4,5,1000}`,
`detect_outliers` with `method='iqr'` flags exactly the row holding the
value 1000, reports `n_outliers = 1` and
`outlier_percentage = 50/3`, and reports the bound pair
`lower_bound = −3/2` (negative, not positive as claimed) and
`upper_bound = 17/2` (positive). -/
theorem C1_amended_iqr_bounds (t : Table) (c : String)
    (hc : c ∈ (NetflixExploratoryAnalysis t).numerical_cols)
    (hperm : ((numPairs t c).map (·.2)).Perm [1, 2, 3, 4, 5, 1000]) :
    detect_outliers (NetflixExploratoryAnalysis t) c "iqr"
      = Except.ok (((numPairs t c).filter (fun p => decide (p.2 = 1000))).map (·.1),
          some (OutStats.iqr (-3/2) (17/2) 1 (50/3)))
    ∧ ((numPairs t c).filter (fun p => decide (p.2 = 1000))).length = 1 :=
  detect_outliers_iqr_135 (NetflixExploratoryAnalysis t) c hc hperm

theorem C1_amended_iqr_bounds_witness :
    "views" ∈ (NetflixExploratoryAnalysis tC1).numerical_cols
    ∧ detect_outliers (NetflixExploratoryAnalysis tC1) "views" "iqr"
        = Except.ok ([5], some (OutStats.iqr (-3/2) (17/2) 1 (50/3))) := by
  have hperm : ((numPairs tC1 "views").map (·.2)).Perm [1, 2, 3, 4, 5, 1000] := by
    have he : (numPairs tC1 "views").map (·.2) = [(1:ℚ), 2, 3, 4, 5, 1000] := rfl
    rw [he]
  have h := C1_amended_iqr_bounds tC1 "views" (by decide) hperm
  refine ⟨by decide, ?_⟩
  rw [h.1]
  rfl

theorem stepStore_getElem?_ne (parse : String → ℚ) (a : AnalyzerH) (st : Store)
    (op : AOp) (r : Nat) (h : r ≠ a.ref) :
    (stepStore parse a st op)[r]? = st[r]? := by
  cases op with
  | summary => rfl
  | corr m => rfl
  | outliers c m => rfl
  | catan => rfl
  | ts d v =>
      show (st.set a.ref _)[r]? = st[r]?
      exact List.getElem?_set_ne (Ne.symm h)

theorem runOps_getElem?_ne (parse : String → ℚ) (a : AnalyzerH) (ops : List AOp)
    (st : Store) (r : Nat) (h : r ≠ a.ref) :
    (runOps parse a ops st)[r]? = st[r]? := by
  induction ops generalizing st with
  | nil => rfl
  | cons op ops ih =>
      rw [runOps, ih, stepStore_getElem?_ne _ _ _ _ _ h]

/-- C7: the constructor's `data.copy()` allocates a fresh heap cell, and
every analyzer method writes (at most) through the instance's own
reference, so after any sequence of analyzer calls — including
`time_series_analysis`, which rewrites a column in place — the caller's
original table is exactly what it was. -/
theorem C7_constructor_copies (st : Store) (r : Nat) (hr : r < st.length)
    (parse : String → ℚ) (ops : List AOp) :
    (runOps parse (mkAnalyzerH r st).1 ops (mkAnalyzerH r st).2)[r]?
      = some (st.getD r emptyTable) := by
  have h2 : r ≠ (mkAnalyzerH r st).1.ref := by
    show r ≠ st.length
    omega
  rw [runOps_getElem?_ne _ _ _ _ _ h2]
  show (st ++ [st.getD r emptyTable])[r]? = _
  rw [List.getElem?_append_left hr, List.getD_eq_getElem?_getD,
    List.getElem?_eq_getElem hr]
  rfl

theorem C7_constructor_copies_witness :
    0 < [tC1].length
    ∧ (runOps (fun _ => 0) (mkAnalyzerH 0 [tC1]).1
        [AOp.ts "views" "views", AOp.summary, AOp.catan]
        (mkAnalyzerH 0 [tC1]).2)[0]? = some ([tC1].getD 0 emptyTable) :=
  ⟨by decide, C7_constructor_copies [tC1] 0 (by decide) (fun _ => 0)
    [AOp.ts "views" "views", AOp.summary, AOp.catan]⟩

theorem findIdx_name_map (cs : List (String × Dtype))
    (f : String × Dtype → String × Dtype) (hf : ∀ p, (f p).1 = p.1)
    (c' : String) :
    (cs.map f).findIdx (fun p => p.1 = c') = cs.findIdx (fun p => p.1 = c') := by
  induction cs with
  | nil => rfl
  | cons p ps ih =>
      simp only [List.map_cons, List.findIdx_cons]
      rw [hf p, ih]

theorem colIdx_convertDateCol (parse : String → ℚ) (t : Table) (c c' : String) :
    (convertDateCol parse t c).colIdx c' = t.colIdx c' :=
  findIdx_name_map t.cols (fun p => if p.1 = c then (p.1, Dtype.datetime) else p)
    (fun p => by by_cases h : p.1 = c <;> simp [h]) c'

theorem getD_set_self_toDT (parse : String → ℚ) (r : List (Option Val)) (i : Nat) :
    (r.set i (toDT parse (r.getD i none))).getD i none
      = toDT parse (r.getD i none) := by
  by_cases h : i < r.length
  · rw [List.getD_eq_getElem?_getD, List.getElem?_set_self h]
    rfl
  · push_neg at h
    rw [List.set_eq_of_length_le h]
    have hnone : r.getD i none = none := by
      rw [List.getD_eq_getElem?_getD, List.getElem?_eq_none h]
      rfl
    rw [hnone]
    rfl

theorem getCol_convertDateCol (parse : String → ℚ) (t : Table) (c : String) :
    (convertDateCol parse t c).getCol c = (t.getCol c).map (toDT parse) := by
  have h1 : (convertDateCol parse t c).getCol c
      = (t.rows.map (fun r =>
          r.set (t.colIdx c) (toDT parse (r.getD (t.colIdx c) none)))).map
        (fun r => r.getD ((convertDateCol parse t c).colIdx c) none) := rfl
  have h2 : (t.getCol c).map (toDT parse)
      = (t.rows.map (fun r => r.getD (t.colIdx c) none)).map (toDT parse) := rfl
  rw [h1, h2, colIdx_convertDateCol, List.map_map, List.map_map]
  apply List.map_congr_left
  intro r _
  simp only [Function.comp]
  exact getD_set_self_toDT parse r (t.colIdx c)

theorem find?_setDtype (cs : List (String × Dtype)) (c : String)
    (h : c ∈ cs.map (·.1)) :
    (cs.map (fun p => if p.1 = c then (p.1, Dtype.datetime) else p)).find?
      (fun p => p.1 = c) = some (c, Dtype.datetime) := by
  induction cs with
  | nil => simp at h
  | cons p ps ih =>
      by_cases hpc : p.1 = c
      · rw [List.map_cons, if_pos hpc, List.find?_cons_of_pos _ (by simp [hpc])]
        rw [hpc]
      · have h' : c ∈ ps.map (·.1) := by
          rcases List.mem_cons.mp h with he | hm
          · exact absurd he.symm hpc
          · exact hm
        rw [List.map_cons, if_neg hpc, List.find?_cons_of_neg _ (by simp [hpc])]
        exact ih h'

theorem dtypeOf_convertDateCol (parse : String → ℚ) (t : Table) (c : String)
    (h : c ∈ t.colNames) :
    dtypeOf (convertDateCol parse t c) c = some Dtype.datetime := by
  have h1 : dtypeOf (convertDateCol parse t c) c
      = ((t.cols.map (fun p => if p.1 = c then (p.1, Dtype.datetime) else p)).find?
          (fun p => p.1 = c)).map (·.2) := rfl
  rw [h1, find?_setDtype t.cols c h]
  rfl

/-- C9: `time_series_analysis` writes through the instance's reference —
afterwards the stored table is the old one with the date column's cells
rewritten to their datetime-parsed form and its dtype changed to
datetime, which is what later calls observe — while
`generate_statistical_summary`, `correlation_analysis`,
`detect_outliers` and `categorical_analysis` leave the heap exactly as
it was. -/
theorem C9_only_ts_mutates (parse : String → ℚ) (a : AnalyzerH) (st : Store)
    (c m m2 dcol vcol : String) (hr : a.ref < st.length)
    (hd : dcol ∈ (st.getD a.ref emptyTable).colNames) :
    (summaryH a st).1 = st
    ∧ (corrH a m2 st).1 = st
    ∧ (outliersH a c m st).1 = st
    ∧ (catH a st).1 = st
    ∧ (tsH parse a dcol vcol st).1
        = st.set a.ref (convertDateCol parse (st.getD a.ref emptyTable) dcol)
    ∧ (tsH parse a dcol vcol st).1.getD a.ref emptyTable
        = convertDateCol parse (st.getD a.ref emptyTable) dcol
    ∧ (convertDateCol parse (st.getD a.ref emptyTable) dcol).getCol dcol
        = ((st.getD a.ref emptyTable).getCol dcol).map (toDT parse)
    ∧ dtypeOf (convertDateCol parse (st.getD a.ref emptyTable) dcol) dcol
        = some Dtype.datetime := by
  have hd' : dcol ∈ (viewH a st).data.colNames := hd
  have hts : (time_series_analysis parse (viewH a st) dcol vcol).1.data
      = convertDateCol parse (st.getD a.ref emptyTable) dcol := by
    unfold time_series_analysis
    rw [if_neg (not_not_intro hd')]
    dsimp only
    split_ifs <;> rfl
  have hstore : (tsH parse a dcol vcol st).1
      = st.set a.ref (convertDateCol parse (st.getD a.ref emptyTable) dcol) := by
    show st.set a.ref (time_series_analysis parse (viewH a st) dcol vcol).1.data = _
    rw [hts]
  refine ⟨rfl, rfl, rfl, rfl, hstore, ?_, getCol_convertDateCol parse _ dcol,
    dtypeOf_convertDateCol parse _ dcol hd⟩
  rw [hstore, List.getD_eq_getElem?_getD, List.getElem?_set_self hr]
  rfl

theorem C9_only_ts_mutates_witness :
    (tsH (fun _ => 0) ⟨0, [], []⟩ "release_date" "x" [tDate]).1
      = [tDate].set 0 (convertDateCol (fun _ => 0) tDate "release_date")
    ∧ dtypeOf (convertDateCol (fun _ => 0) tDate "release_date") "release_date"
      = some Dtype.datetime := by
  have h := C9_only_ts_mutates (fun _ => 0) ⟨0, [], []⟩ [tDate] "c" "m" "m2"
    "release_date" "x" (by decide) (by decide)
  exact ⟨h.2.2.2.2.1, h.2.2.2.2.2.2.2⟩

end Netflix
